import Mathlib

/-!
Verification of the BLE battery-service peripheral example
(`examples/esp32/src/bin/ble_bas_peripheral.rs`).

The example builds a GATT attribute table, encodes an advertisement,
and then runs three concurrent activities under `join3`: the radio pump
(`ble.run()`), a GATT event loop, and an advertise → accept → notify
sequence.  The definitions below are a shallow embedding of that code;
machine integers are modelled as `Nat` with explicit `% 256` where the
source uses `u8` wrapping arithmetic.
-/

namespace BleBas

/-! ## Notification counter (the `tick` variable of the notify loop)

Source: `let mut tick: u8 = 0; loop { Timer::after(...); tick += 1;
server.notify(handle, &conn, &[tick]).await.unwrap(); }`.
`u8` increments wrap at 256. -/

/-- One iteration of the counter update `tick += 1` on a `u8`. -/
def tickStep (c : Nat) : Nat := (c + 1) % 256

/-- Value of `tick` after `n` iterations of the notify loop (tick 0 is the
initial value before the first notification). -/
def tickCounter : Nat → Nat
  | 0 => 0
  | n + 1 => tickStep (tickCounter n)

/-- Payload `&[tick]` sent at tick `n` (one byte). -/
def notifyPayload (n : Nat) : List Nat := [tickCounter n]

theorem tickCounter_eq_mod (n : Nat) : tickCounter n = n % 256 := by
  induction n with
  | zero => rfl
  | succ k ih =>
      simp only [tickCounter, tickStep, ih]
      omega

/-! ## GATT event loop

Source: `loop { match server.next().await { Ok(_event) => { info!(...) }
Err(e) => { warn!(...) } } }`.  Both arms of the match fall through to the
next iteration; the loop body has no `break` or `return`. -/

/-- Result of one `server.next().await` call: a GATT event or a stream
error.  The payloads are irrelevant to control flow. -/
abbrev GattItem := Except Unit Unit

/-- What one iteration of the loop body does with the next item. -/
inductive LoopControl
  | next
  | halt
deriving DecidableEq

/-- Control-flow outcome of the loop body on one item: both the `Ok`
arm (log the event) and the `Err` arm (log the error) continue. -/
def eventLoopBody (item : GattItem) : LoopControl :=
  match item with
  | .ok _ => .next
  | .error _ => .next

/-- Observable state of the event loop: how many items it has consumed
and how many stream errors it has recorded. -/
structure EventLoopState where
  consumed : Nat
  errorsRecorded : Nat
deriving DecidableEq, Repr

/-- Processing one item: the item is consumed, an error is recorded on
the `Err` arm, and the loop continues in either case. -/
def eventLoopStep (st : EventLoopState) (item : GattItem) : EventLoopState :=
  match item with
  | .ok _ => { st with consumed := st.consumed + 1 }
  | .error _ =>
      { st with consumed := st.consumed + 1,
                errorsRecorded := st.errorsRecorded + 1 }

/-- State of the event loop after consuming the first `n` items of the
stream, starting from the initial state. -/
def runEventLoop (stream : Nat → GattItem) : Nat → EventLoopState
  | 0 => ⟨0, 0⟩
  | n + 1 => eventLoopStep (runEventLoop stream n) (stream n)

/-- Whether the loop has exited within its first `n` iterations: it has
if some iteration's body chose `halt`. -/
def eventLoopDone (stream : Nat → GattItem) : Nat → Bool
  | 0 => false
  | n + 1 => eventLoopDone stream n || (eventLoopBody (stream n) == .halt)

theorem eventLoopBody_next (item : GattItem) : eventLoopBody item = .next := by
  cases item <;> rfl

theorem eventLoopDone_false (stream : Nat → GattItem) (n : Nat) :
    eventLoopDone stream n = false := by
  induction n with
  | zero => rfl
  | succ k ih => simp [eventLoopDone, ih, eventLoopBody_next]

theorem runEventLoop_consumed (stream : Nat → GattItem) (n : Nat) :
    (runEventLoop stream n).consumed = n := by
  induction n with
  | zero => rfl
  | succ k ih =>
      cases h : stream k <;>
        simp [runEventLoop, eventLoopStep, h, ih]

/-! ## Attribute table

Source registration calls (builder semantics are in the `trouble_host`
library, outside this tree; the table contents come from the example's
calls in `main`). -/

/-- Access properties of a characteristic (the variants the example
uses, from `trouble_host::attribute::CharacteristicProp`). -/
inductive CharacteristicProp
  | Read
  | Write
  | Notify
deriving DecidableEq, Repr

/-- A characteristic: 16-bit UUID, property set, initial value bytes. -/
structure Characteristic where
  uuid : Nat
  props : List CharacteristicProp
  value : List Nat
deriving DecidableEq, Repr

/-- A service: 16-bit UUID plus its ordered characteristics. -/
structure Service where
  uuid : Nat
  characteristics : List Characteristic
deriving DecidableEq, Repr

/-- Builder state for one service (`table.add_service(Service::new(u))`). -/
def Service.new (uuid : Nat) : Service := ⟨uuid, []⟩

/-- `svc.add_characteristic_ro(uuid, value)`: a read-only characteristic. -/
def Service.add_characteristic_ro (s : Service) (uuid : Nat) (value : List Nat) :
    Service :=
  { s with characteristics :=
      s.characteristics ++ [⟨uuid, [CharacteristicProp.Read], value⟩] }

/-- `svc.add_characteristic(uuid, props, buffer)`. -/
def Service.add_characteristic (s : Service) (uuid : Nat)
    (props : List CharacteristicProp) (value : List Nat) : Service :=
  { s with characteristics := s.characteristics ++ [⟨uuid, props, value⟩] }

/-- Device name bytes, source line `let id = b"Trouble ESP32";`. -/
def deviceName : List Nat :=
  [0x54, 0x72, 0x6f, 0x75, 0x62, 0x6c, 0x65, 0x20, 0x45, 0x53, 0x50, 0x33, 0x32]

/-- Appearance bytes, source line `let appearance = [0x80, 0x07];`. -/
def appearance : List Nat := [0x80, 0x07]

/-- Initial battery-level buffer, source line `let mut bat_level = [0; 1];`. -/
def batLevelInit : List Nat := [0]

/-- The Generic Access service built in `main` (UUID 0x1800 with the
read-only Device Name 0x2a00 and Appearance 0x2a01 characteristics). -/
def gapService : Service :=
  ((Service.new 0x1800).add_characteristic_ro 0x2a00 deviceName).add_characteristic_ro
    0x2a01 appearance

/-- The Generic Attribute service built in `main` (UUID 0x1801, empty). -/
def gattService : Service := Service.new 0x1801

/-- The battery service built in `main` (UUID 0x180f, one characteristic
0x2a19 with properties Read and Notify over `bat_level`). -/
def batteryService : Service :=
  (Service.new 0x180f).add_characteristic 0x2a19
    [CharacteristicProp.Read, CharacteristicProp.Notify] batLevelInit

/-- The attribute table of `main`: services in registration order. -/
def mainTable : List Service := [gapService, gattService, batteryService]

/-- Number of table attributes a service occupies: its declaration plus
one per characteristic. -/
def attributeCount (s : Service) : Nat := 1 + s.characteristics.length

/-- Modelled from the spec: the `trouble_host` `AttributeTable` builder
(not in this tree) assigns each attribute "a monotonically increasing
numeric Handle in registration order".  `serviceHandleRanges tbl start`
gives, per service in registration order, the list of handles assigned
to that service's attributes, consecutively from `start`. -/
def serviceHandleRanges : List Service → Nat → List (List Nat)
  | [], _ => []
  | s :: rest, start =>
      ((List.range (attributeCount s)).map (· + start)) ::
        serviceHandleRanges rest (start + attributeCount s)

/-- All handles of the table in registration order. -/
def allHandles (tbl : List Service) (start : Nat) : List Nat :=
  (serviceHandleRanges tbl start).flatten

/-- Initial value of the characteristic with the given UUID, searching
the table in registration order. -/
def lookupCharValue (tbl : List Service) (uuid : Nat) : Option (List Nat) :=
  (tbl.flatMap Service.characteristics).find? (fun c => c.uuid == uuid)
    |>.map Characteristic.value

/-! ## Advertisement encoding

Source: `AdStructure::encode_slice(&[Flags(..), ServiceUuids16(..),
CompleteLocalName(..)], &mut adv_data[..]).unwrap()` with
`let mut adv_data = [0; 31];`.  The encoder itself lives in the
`trouble_host` library, outside this tree. -/

/-- Advertising-structure variants used by the example. -/
inductive AdStructure
  | Flags (flags : Nat)
  | ServiceUuids16 (uuids : List (List Nat))
  | CompleteLocalName (name : List Nat)
deriving DecidableEq, Repr

/-- Payload bytes of one advertising structure. -/
def AdStructure.payload : AdStructure → List Nat
  | .Flags f => [f % 256]
  | .ServiceUuids16 us => us.flatten
  | .CompleteLocalName n => n

/-- Assigned-numbers type byte of one advertising structure. -/
def AdStructure.typeByte : AdStructure → Nat
  | .Flags _ => 0x01
  | .ServiceUuids16 _ => 0x03
  | .CompleteLocalName _ => 0x09

/-- Modelled from the spec: the library's encoder (not in this tree)
"packs each structure as a length-prefixed typed record": a length byte
covering the type byte and payload, then the type byte, then the
payload. -/
def encodeOne (s : AdStructure) : List Nat :=
  (s.payload.length + 1) :: s.typeByte :: s.payload

/-- Total bytes produced by encoding the sequence of structures. -/
def encodedBytes (structures : List AdStructure) : List Nat :=
  (structures.map encodeOne).flatten

/-- Modelled from the spec: `AdStructure::encode_slice` (not in this
tree) packs the structures into the caller's fixed-size buffer and
"fails with a capacity-exceeded condition if the total encoded length
exceeds the output buffer's fixed size"; on success the buffer holds the
encoded bytes followed by its untouched tail, and the encoded length is
returned. -/
def encode_slice (structures : List AdStructure) (buf : List Nat) :
    Except Unit (List Nat × Nat) :=
  if (encodedBytes structures).length ≤ buf.length then
    .ok (encodedBytes structures ++ buf.drop (encodedBytes structures).length,
         (encodedBytes structures).length)
  else
    .error ()

/-- Application value `LE_GENERAL_DISCOVERABLE | BR_EDR_NOT_SUPPORTED`
(0x02 ||| 0x04). -/
def advFlags : Nat := 0x02 ||| 0x04

/-- The advertising structures of `main`, in order. -/
def advStructures : List AdStructure :=
  [AdStructure.Flags advFlags,
   AdStructure.ServiceUuids16 [[0x0f, 0x18]],
   AdStructure.CompleteLocalName
     [0x54, 0x72, 0x6f, 0x75, 0x62, 0x6c, 0x65, 0x20, 0x45, 0x53, 0x50, 0x33, 0x32]]

/-- Number of stream errors among the first `n` items. -/
def errorCount (stream : Nat → GattItem) : Nat → Nat
  | 0 => 0
  | n + 1 =>
      errorCount stream n +
        match stream n with
        | .ok _ => 0
        | .error _ => 1

/-! ## Interaction of the notify task's `unwrap()` with the other tasks

`server.notify(handle, &conn, &[tick]).await.unwrap()`: on `Err` the
`unwrap` panics.  The example links `esp_backtrace`, whose panic handler
halts the program, and the panic unwinds out of the `join3` future, so a
panicked program executes no further step of any of the three joined
activities. -/

instance decEqGattItem : DecidableEq GattItem := fun a b =>
  match a, b with
  | .ok (), .ok () => isTrue rfl
  | .ok (), .error () => isFalse (by simp)
  | .error (), .ok () => isFalse (by simp)
  | .error (), .error () => isTrue rfl

/-- Joint observable state of the program: the event loop's state and the
notify task's `tick`, either still running or halted by a panic. -/
inductive ProgState
  | running (ev : EventLoopState) (tick : Nat)
  | panicked (ev : EventLoopState) (tick : Nat)
deriving DecidableEq, Repr

/-- One scheduled piece of work: the event loop receives its next stream
item, or the notify task's timer fires and its send completes with the
given result. -/
inductive Action
  | gattItem (r : GattItem)
  | notifyTick (sendResult : Except Unit Unit)
deriving DecidableEq, Repr

/-- Interleaved step of the joined composition.  A stream item advances
the event loop (both arms continue).  A notify tick runs `tick += 1`
then the send; `unwrap` on an `Err` send panics, and a panicked program
takes no further steps. -/
def compStep : ProgState → Action → ProgState
  | .running ev t, .gattItem r => .running (eventLoopStep ev r) t
  | .running ev t, .notifyTick r =>
      match r with
      | .ok _ => .running ev (tickStep t)
      | .error _ => .panicked ev (tickStep t)
  | .panicked ev t, _ => .panicked ev t

/-- Run the composition over a finite schedule of actions. -/
def compRun (st : ProgState) (acts : List Action) : ProgState :=
  List.foldl compStep st acts

/-- The event-loop consumption count visible in a program state. -/
def evConsumed : ProgState → Nat
  | .running ev _ => ev.consumed
  | .panicked ev _ => ev.consumed

/-! ## The advertise → accept → notify branch (session sequence)

Source: `let mut advertiser = ble.advertise(...).await.unwrap();
let conn = advertiser.accept().await.unwrap(); ... loop { ... notify ... }`.
The trace records the successful session-level operations of this branch
in order; a failed `advertise` or `accept` panics via `unwrap`, ending the
execution with no further operation. -/

/-- Session-level operations of the third joined branch. -/
inductive SessionOp
  | advertise
  | accept
  | notify (payload : List Nat)
deriving DecidableEq, Repr

/-- Trace of successful operations when advertise succeeds iff `advOk`,
accept succeeds iff `acceptOk`, and `ticks` notify iterations are
observed. -/
def sessionTrace (advOk acceptOk : Bool) (ticks : Nat) : List SessionOp :=
  if advOk then
    if acceptOk then
      SessionOp.advertise :: SessionOp.accept ::
        (List.range ticks).map (fun i => SessionOp.notify (notifyPayload (i + 1)))
    else [SessionOp.advertise]
  else []

/-- Whether an operation is a successful accept. -/
def isAccept : SessionOp → Bool
  | .accept => true
  | _ => false

/-- Whether an operation is a successful advertise. -/
def isAdvertise : SessionOp → Bool
  | .advertise => true
  | _ => false

/-! ## The three-way join

Source: `join3(ble.run(), async { gatt event loop }, async { advertise →
accept → notify }).await`. -/

/-- Completion of `join3`: the joined future is ready exactly when all
three branch futures are. -/
def join3Done (a b c : Bool) : Bool := a && b && c

/-- Modelled from the spec: `ble.run()` is library code not in this
tree; per the spec the radio pump is a perpetual activity that "must be
kept running for the others to make progress" and never completes in
steady state, so it is not complete after any finite number of steps. -/
def radioPumpDone (_n : Nat) : Bool := false

/-- Control-flow outcome of one loop iteration of the notify branch. -/
inductive BranchIterStep
  | continueIter
  | returnIter
  | panicIter
deriving DecidableEq

/-- One iteration of the notify loop body: a successful send falls
through to the next iteration; an `Err` send panics via `unwrap`; no
path returns a value (the loop has no `break` or `return`). -/
def notifyIterStep (sendResult : Except Unit Unit) : BranchIterStep :=
  match sendResult with
  | .ok _ => .continueIter
  | .error _ => .panicIter

/-- Whether the third branch has completed (returned a value) within its
first `n` notify iterations. -/
def notifySeqDone (sends : Nat → Except Unit Unit) : Nat → Bool
  | 0 => false
  | n + 1 => notifySeqDone sends n || (notifyIterStep (sends n) == .returnIter)

/-- Whether the `join3` of the three branches has produced its final
result after `n` steps of each branch. -/
def compositionDone (stream : Nat → GattItem) (sends : Nat → Except Unit Unit)
    (n : Nat) : Bool :=
  join3Done (radioPumpDone n) (eventLoopDone stream n) (notifySeqDone sends n)

/-- Payload of the Complete Local Name structure of an advertisement, if
one is present. -/
def localNameOf (structures : List AdStructure) : Option (List Nat) :=
  structures.findSome? fun s =>
    match s with
    | .CompleteLocalName n => some n
    | _ => none

/-! ## Helper lemmas -/

theorem errorsRecorded_eq (stream : Nat → GattItem) (n : Nat) :
    (runEventLoop stream n).errorsRecorded = errorCount stream n := by
  induction n with
  | zero => rfl
  | succ k ih =>
      cases h : stream k <;>
        simp [runEventLoop, eventLoopStep, errorCount, h, ih]

theorem notifySeqDone_false (sends : Nat → Except Unit Unit) (n : Nat) :
    notifySeqDone sends n = false := by
  induction n with
  | zero => rfl
  | succ k ih =>
      cases h : sends k <;> simp [notifySeqDone, notifyIterStep, h, ih]

theorem take_length_append_self (l m : List Nat) : (l ++ m).take l.length = l := by
  induction l with
  | nil => rfl
  | cons a t ih => simp [List.take_succ_cons, ih]

theorem countP_map_notify (p : SessionOp → Bool)
    (hp : ∀ l, p (SessionOp.notify l) = false) (L : List Nat) :
    ((L.map fun i => SessionOp.notify (notifyPayload (i + 1))).countP p) = 0 := by
  induction L with
  | nil => rfl
  | cons a t ih => simp [List.countP_cons, hp, ih]

/-! ## Claims -/

/-- C1: for every tick n ≥ 1 of the notification task, the notification
sent at tick n carries exactly one byte whose value equals n mod 256:
the first notification carries 1, the counter is an 8-bit value that
wraps at 256 (payload at tick n + 256 equals payload at tick n), and
after 256 ticks the payload repeats the counter value seen at tick 0. -/
theorem C1_notify_payload (n : Nat) (_h : 1 ≤ n) :
    (notifyPayload n).length = 1 ∧
    notifyPayload n = [n % 256] ∧
    notifyPayload 1 = [1] ∧
    notifyPayload (n + 256) = notifyPayload n ∧
    notifyPayload 256 = [tickCounter 0] := by
  refine ⟨rfl, ?_, rfl, ?_, ?_⟩
  · simp [notifyPayload, tickCounter_eq_mod]
  · simp [notifyPayload, tickCounter_eq_mod, Nat.add_mod_right]
  · simp [notifyPayload, tickCounter_eq_mod]

/-- Witness for C1 at tick 300. -/
theorem C1_notify_payload_witness :
    1 ≤ 300 ∧
    ((notifyPayload 300).length = 1 ∧
     notifyPayload 300 = [300 % 256] ∧
     notifyPayload 1 = [1] ∧
     notifyPayload (300 + 256) = notifyPayload 300 ∧
     notifyPayload 256 = [tickCounter 0]) :=
  ⟨by decide, C1_notify_payload 300 (by decide)⟩

/-- C2 counterexample: schedule a notify tick whose send errors, then
deliver a GATT stream item.  The `unwrap` panic halts the program, so
the event loop does not consume the item: its consumption count stays 0
instead of reaching 1, refuting that the GATT event loop continues
running unaffected after a notify send error. -/
theorem C2_counterexample :
    compRun (ProgState.running ⟨0, 0⟩ 0)
        [Action.notifyTick (Except.error ()), Action.gattItem (Except.ok ())] =
      ProgState.panicked ⟨0, 0⟩ 1 ∧
    ¬ evConsumed
        (compRun (ProgState.running ⟨0, 0⟩ 0)
          [Action.notifyTick (Except.error ()),
           Action.gattItem (Except.ok ())]) = 1 := by
  decide

/-- C2 (amended): if a notify send returns an error, the `unwrap`
panics with no retry, and the panic halts the whole program: from the
panicked state no action — neither a GATT stream item nor a further
notify tick — changes the state, so the radio pump and GATT event loop
stop as well rather than continuing unaffected. -/
theorem C2_amended_panic (ev : EventLoopState) (t : Nat) (acts : List Action) :
    compStep (ProgState.running ev t) (Action.notifyTick (Except.error ())) =
      ProgState.panicked ev (tickStep t) ∧
    compRun (ProgState.panicked ev t) acts = ProgState.panicked ev t := by
  refine ⟨rfl, ?_⟩
  induction acts with
  | nil => rfl
  | cons a rest ih => cases a <;> simpa [compRun, compStep] using ih

/-- C3: with services registered in order [0x1800, 0x1801, 0x180f], the
assigned handles are strictly increasing across the whole table in
registration order, and every handle of the reporting (battery) service
is numerically greater than every handle of the Generic Access and
Generic Attribute services. -/
theorem C3_handle_order :
    List.Pairwise (· < ·) (allHandles mainTable 1) ∧
    ∀ h ∈ (serviceHandleRanges mainTable 1).getD 2 [],
      ∀ g ∈ (serviceHandleRanges mainTable 1).getD 0 [] ++
            (serviceHandleRanges mainTable 1).getD 1 [], g < h := by
  decide

/-- C4: for every event stream (hence for any number of consecutive
errors) and every number of iterations, the GATT event loop has not
terminated, has issued exactly one consume step per iteration, and has
recorded exactly the errors seen so far — no error budget, backoff, or
terminal error state. -/
theorem C4_event_loop_resilient (stream : Nat → GattItem) (n : Nat) :
    eventLoopDone stream n = false ∧
    (runEventLoop stream n).consumed = n ∧
    (runEventLoop stream n).errorsRecorded = errorCount stream n :=
  ⟨eventLoopDone_false stream n, runEventLoop_consumed stream n,
   errorsRecorded_eq stream n⟩

/-- C5: for every ordered sequence of advertising structures and every
31-byte output buffer, encoding fails with a capacity-exceeded condition
if and only if the total encoded length (each structure packed as a
length-prefixed typed record) exceeds 31 bytes; on success the encoded
total is at most 31 bytes. -/
theorem C5_encode_capacity (structures : List AdStructure) (buf : List Nat)
    (hbuf : buf.length = 31) :
    (encode_slice structures buf = Except.error () ↔
      31 < (encodedBytes structures).length) ∧
    ∀ out len, encode_slice structures buf = Except.ok (out, len) →
      len = (encodedBytes structures).length ∧ len ≤ 31 := by
  unfold encode_slice
  rw [hbuf]
  by_cases h : (encodedBytes structures).length ≤ 31
  · rw [if_pos h]
    refine ⟨⟨fun hc => absurd hc (by simp), fun hc => absurd h (by omega)⟩, ?_⟩
    intro out len hok
    cases hok
    exact ⟨rfl, h⟩
  · rw [if_neg h]
    refine ⟨⟨fun _ => (by omega), fun _ => rfl⟩, ?_⟩
    intro out len hok
    cases hok

/-- Witness for C5: the advertising structures of `main` against the
31-byte buffer `adv_data`. -/
theorem C5_encode_capacity_witness :
    (encode_slice advStructures (List.replicate 31 0) = Except.error () ↔
      31 < (encodedBytes advStructures).length) ∧
    ∀ out len,
      encode_slice advStructures (List.replicate 31 0) = Except.ok (out, len) →
      len = (encodedBytes advStructures).length ∧ len ≤ 31 :=
  C5_encode_capacity advStructures (List.replicate 31 0) (by decide)

/-- C6: advertisement encoding is deterministic — encoding the same
ordered structure sequence into any two 31-byte buffers either fails in
both or succeeds in both with the same encoded length and byte-identical
encoded output. -/
theorem C6_encode_deterministic (structures : List AdStructure)
    (buf1 buf2 : List Nat) (h1 : buf1.length = 31) (h2 : buf2.length = 31) :
    (encode_slice structures buf1 = Except.error () ↔
      encode_slice structures buf2 = Except.error ()) ∧
    ∀ out1 len1 out2 len2,
      encode_slice structures buf1 = Except.ok (out1, len1) →
      encode_slice structures buf2 = Except.ok (out2, len2) →
      len1 = len2 ∧ out1.take len1 = out2.take len2 := by
  unfold encode_slice
  rw [h1, h2]
  by_cases h : (encodedBytes structures).length ≤ 31
  · rw [if_pos h, if_pos h]
    refine ⟨⟨fun hc => absurd hc (by simp), fun hc => absurd hc (by simp)⟩, ?_⟩
    intro out1 len1 out2 len2 hok1 hok2
    cases hok1
    cases hok2
    exact ⟨rfl, by rw [take_length_append_self, take_length_append_self]⟩
  · rw [if_neg h, if_neg h]
    exact ⟨Iff.rfl, fun out1 len1 out2 len2 hok1 _ => (by cases hok1)⟩

/-- Witness for C6: the structures of `main` against two 31-byte buffers
with different prior contents. -/
theorem C6_encode_deterministic_witness :
    (encode_slice advStructures (List.replicate 31 0) = Except.error () ↔
      encode_slice advStructures (List.replicate 31 7) = Except.error ()) ∧
    ∀ out1 len1 out2 len2,
      encode_slice advStructures (List.replicate 31 0) = Except.ok (out1, len1) →
      encode_slice advStructures (List.replicate 31 7) = Except.ok (out2, len2) →
      len1 = len2 ∧ out1.take len1 = out2.take len2 :=
  C6_encode_deterministic advStructures (List.replicate 31 0)
    (List.replicate 31 7) (by decide) (by decide)

/-- C7: in the session's execution, a successful advertise and a
successful accept each occur exactly once, and every operation after the
Connected state (trace position 2 onward) is a notification — no path
back to advertising or a second accept. -/
theorem C7_single_accept (ticks : Nat) (advOk acceptOk : Bool)
    (hAdv : advOk = true) (hAcc : acceptOk = true) :
    (sessionTrace advOk acceptOk ticks).countP isAccept = 1 ∧
    (sessionTrace advOk acceptOk ticks).countP isAdvertise = 1 ∧
    ∀ op ∈ (sessionTrace advOk acceptOk ticks).drop 2,
      isAccept op = false ∧ isAdvertise op = false := by
  subst hAdv
  subst hAcc
  refine ⟨?_, ?_, ?_⟩
  · simp [sessionTrace, List.countP_cons, isAccept,
      countP_map_notify isAccept fun _ => rfl]
  · simp [sessionTrace, List.countP_cons, isAdvertise,
      countP_map_notify isAdvertise fun _ => rfl]
  · intro op hop
    simp only [sessionTrace, if_pos, List.drop_succ_cons, List.drop_zero] at hop
    obtain ⟨i, _, rfl⟩ := List.mem_map.mp hop
    exact ⟨rfl, rfl⟩

/-- Witness for C7 with three observed notify iterations. -/
theorem C7_single_accept_witness :
    (sessionTrace true true 3).countP isAccept = 1 ∧
    (sessionTrace true true 3).countP isAdvertise = 1 ∧
    ∀ op ∈ (sessionTrace true true 3).drop 2,
      isAccept op = false ∧ isAdvertise op = false :=
  C7_single_accept 3 true true rfl rfl

/-- C8: the three-way join of radio pump, GATT event loop and
advertise→accept→notify sequence produces a final result only when all
three branches have completed, and — the radio pump and event loop never
completing — the composition is not complete after any number of steps,
for any stream and any sequence of send results. -/
theorem C8_composition_runs_forever (stream : Nat → GattItem)
    (sends : Nat → Except Unit Unit) (n : Nat) :
    compositionDone stream sends n = false ∧
    ∀ a b c : Bool, join3Done a b c = true →
      a = true ∧ b = true ∧ c = true := by
  constructor
  · simp [compositionDone, join3Done, radioPumpDone]
  · intro a b c h
    simp only [join3Done, Bool.and_eq_true] at h
    exact ⟨h.1.1, h.1.2, h.2⟩

/-- Witness for C8 at an all-success stream after four steps. -/
theorem C8_composition_witness :
    compositionDone (fun _ => Except.ok ()) (fun _ => Except.ok ()) 4 = false ∧
    (true = true ∧ true = true ∧ true = true) :=
  ⟨(C8_composition_runs_forever (fun _ => Except.ok ())
      (fun _ => Except.ok ()) 4).1,
   (C8_composition_runs_forever (fun _ => Except.ok ())
      (fun _ => Except.ok ()) 4).2 true true true rfl⟩

/-- C9: the finalized table contains exactly a Generic Access service
0x1800 with read-only Device Name 0x2a00 and read-only Appearance
0x2a01, an empty Generic Attribute service 0x1801, and a reporting
service 0x180f with exactly one characteristic 0x2a19 whose properties
are Read and Notify. -/
theorem C9_table_exact :
    mainTable =
      [⟨0x1800, [⟨0x2a00, [CharacteristicProp.Read], deviceName⟩,
                 ⟨0x2a01, [CharacteristicProp.Read], [0x80, 0x07]⟩]⟩,
       ⟨0x1801, []⟩,
       ⟨0x180f,
        [⟨0x2a19, [CharacteristicProp.Read, CharacteristicProp.Notify],
          [0]⟩]⟩] := rfl

/-- C10: the Complete Local Name structure of the advertisement and the
initial value of the Device Name characteristic 0x2a00 in the attribute
table are byte-for-byte equal, both being the bytes of the string
Trouble ESP32. -/
theorem C10_local_name_matches_device_name :
    localNameOf advStructures = some deviceName ∧
    lookupCharValue mainTable 0x2a00 = some deviceName ∧
    deviceName =
      [0x54, 0x72, 0x6f, 0x75, 0x62, 0x6c, 0x65, 0x20, 0x45, 0x53, 0x50,
       0x33, 0x32] := by
  refine ⟨rfl, ?_, rfl⟩
  decide

end BleBas
